import Mathlib

/-!
Shallow embedding of the financial projection engine of
`src/pensionlisaisa.py` (a pension / LISA / ISA retirement comparison
calculator), together with proofs of its specified properties.

The source performs all arithmetic with floating point scalars and
`numpy_financial`'s annuity primitives.  Here the closed-form annuity
arithmetic with an integral number of periods is embedded over `ℚ`
(computable), while the logarithmic number-of-periods solve is embedded
over `ℝ`.  A float NaN outcome of the number-of-periods solve is
modelled as `Option.none`.
-/

namespace PensionLisaIsa

/-! ## Tax constants (source lines 61-64) -/

def brt_tax_rate : ℚ := 0.2
def hrt_tax_rate : ℚ := 0.4
def brt_ni_rate : ℚ := 0.08
def hrt_ni_rate : ℚ := 0.02

/-- The two tax bands offered by the UI radio buttons (source line 113). -/
inductive TaxBand
  | BRT
  | HRT
  deriving DecidableEq

/-- The three retirement vehicles compared (source line 66). -/
inductive Vehicle
  | pension
  | lisa
  | isa
  deriving DecidableEq

/-! ## Time-value primitive over an integral number of periods

`npf.fv(rate, nper, pmt, pv)` with `when='end'`:
`-(pv*(1+rate)**nper + pmt*((1+rate)**nper - 1)/rate)`, and
`-(pv + pmt*nper)` when `rate == 0`.  The source only ever calls it with
an integral (or integral-vector) number of periods. -/

def fv (rate : ℚ) (n : ℕ) (pmt_ pv : ℚ) : ℚ :=
  if rate = 0 then -(pv + pmt_ * n)
  else -(pv * (1 + rate) ^ n + pmt_ * ((1 + rate) ^ n - 1) / rate)

/-! ## Contribution normalization (source lines 190-203) -/

def pension_monthly_net_deposit (current_tax : TaxBand) (salary_sacrifice : Bool)
    (monthly_deposit : ℚ) : ℚ :=
  if current_tax = TaxBand.BRT ∧ salary_sacrifice = true then
    monthly_deposit / (1 - brt_tax_rate - brt_ni_rate)
  else if current_tax = TaxBand.BRT ∧ salary_sacrifice = false then
    monthly_deposit / (1 - brt_tax_rate)
  else if current_tax = TaxBand.HRT ∧ salary_sacrifice = true then
    monthly_deposit / (1 - hrt_tax_rate - hrt_ni_rate)
  else
    monthly_deposit / (1 - hrt_tax_rate)

def lisa_monthly_deposit (monthly_deposit : ℚ) : ℚ :=
  monthly_deposit * 1.25

/-- Gross monthly deposit per vehicle: the three entries of the payment
vector passed to `npf.fv` at source line 209. -/
def monthly_gross_deposit (current_tax : TaxBand) (salary_sacrifice : Bool)
    (monthly_deposit : ℚ) : Vehicle → ℚ
  | Vehicle.pension => pension_monthly_net_deposit current_tax salary_sacrifice monthly_deposit
  | Vehicle.lisa => lisa_monthly_deposit monthly_deposit
  | Vehicle.isa => monthly_deposit

/-- Terminal accumulation values (source lines 206-211). -/
def retirement_fvs (growth_rate : ℚ) (retirement_age : ℕ) (current_tax : TaxBand)
    (salary_sacrifice : Bool) (monthly_deposit : ℚ) (v : Vehicle) : ℚ :=
  -fv (growth_rate / 100 / 12) (retirement_age * 12)
    (monthly_gross_deposit current_tax salary_sacrifice monthly_deposit v) 0

/-! ## Withdrawal normalization (source lines 261-264) -/

def pension_monthly_net_withdrawal (retirement_tax : TaxBand)
    (retirement_monthly_withdrawal : ℚ) : ℚ :=
  if retirement_tax = TaxBand.BRT then
    retirement_monthly_withdrawal / (1 - 0.75 * brt_tax_rate)
  else
    retirement_monthly_withdrawal / (1 - 0.75 * hrt_tax_rate)

/-- Gross monthly withdrawal per vehicle: the three entries of the payment
vector passed to `npf.nper` at source line 273 (negated there). -/
def monthly_gross_withdrawal (retirement_tax : TaxBand)
    (retirement_monthly_withdrawal : ℚ) : Vehicle → ℚ
  | Vehicle.pension => pension_monthly_net_withdrawal retirement_tax retirement_monthly_withdrawal
  | Vehicle.lisa => retirement_monthly_withdrawal
  | Vehicle.isa => retirement_monthly_withdrawal

/-! ## Month-by-month schedules (source lines 343-419) -/

def accumulation_months (retirement_age : ℕ) : List ℕ :=
  (List.range (retirement_age * 12)).map (· + 1)

def drawdown_months (retirement_duration : ℕ) : List ℕ :=
  (List.range (retirement_duration * 12)).map (· + 1)

/-- One row of the concatenated accumulation/drawdown DataFrame. -/
structure MonthlyRecord where
  month : ℕ
  growth : ℚ
  net_take_home : ℚ
  pension_deposit : ℚ
  lisa_deposit : ℚ
  isa_deposit : ℚ
  pension_fund : ℚ
  lisa_fund : ℚ
  isa_fund : ℚ
  deriving DecidableEq

def accumulation_df (growth_rate : ℚ) (retirement_age : ℕ) (current_tax : TaxBand)
    (salary_sacrifice : Bool) (monthly_deposit : ℚ) : List MonthlyRecord :=
  (accumulation_months retirement_age).map fun mo =>
    { month := mo
      growth := growth_rate
      net_take_home := -monthly_deposit
      pension_deposit := pension_monthly_net_deposit current_tax salary_sacrifice monthly_deposit
      lisa_deposit := lisa_monthly_deposit monthly_deposit
      isa_deposit := monthly_deposit
      pension_fund := -fv (growth_rate / 100 / 12) mo
        (pension_monthly_net_deposit current_tax salary_sacrifice monthly_deposit) 0
      lisa_fund := -fv (growth_rate / 100 / 12) mo (lisa_monthly_deposit monthly_deposit) 0
      isa_fund := -fv (growth_rate / 100 / 12) mo monthly_deposit 0 }

/-- The drawdown DataFrame, parameterised by the per-vehicle starting balance
(`retirement_fvs` at source line 396, `retirement_fvs_10_years_less_at_age` at
source line 859).  The fund exponent is written `mo + y*12 - y*12` to mirror
the source's `df['Month'] - retirement_age * 12`. -/
def drawdown_df_gen (retirement_growth_rate : ℚ) (retirement_duration retirement_age : ℕ)
    (retirement_tax : TaxBand) (retirement_monthly_withdrawal : ℚ)
    (pv : Vehicle → ℚ) : List MonthlyRecord :=
  (drawdown_months retirement_duration).map fun mo =>
    { month := mo + retirement_age * 12
      growth := retirement_growth_rate
      net_take_home := retirement_monthly_withdrawal
      pension_deposit := -(pension_monthly_net_withdrawal retirement_tax retirement_monthly_withdrawal)
      lisa_deposit := -retirement_monthly_withdrawal
      isa_deposit := -retirement_monthly_withdrawal
      pension_fund := -fv (retirement_growth_rate / 100 / 12)
        (mo + retirement_age * 12 - retirement_age * 12)
        (-(pension_monthly_net_withdrawal retirement_tax retirement_monthly_withdrawal))
        (pv Vehicle.pension)
      lisa_fund := -fv (retirement_growth_rate / 100 / 12)
        (mo + retirement_age * 12 - retirement_age * 12)
        (-retirement_monthly_withdrawal) (pv Vehicle.lisa)
      isa_fund := -fv (retirement_growth_rate / 100 / 12)
        (mo + retirement_age * 12 - retirement_age * 12)
        (-retirement_monthly_withdrawal) (pv Vehicle.isa) }

def drawdown_df (growth_rate retirement_growth_rate : ℚ) (retirement_age retirement_duration : ℕ)
    (current_tax : TaxBand) (salary_sacrifice : Bool) (monthly_deposit : ℚ)
    (retirement_tax : TaxBand) (retirement_monthly_withdrawal : ℚ) : List MonthlyRecord :=
  drawdown_df_gen retirement_growth_rate retirement_duration retirement_age
    retirement_tax retirement_monthly_withdrawal
    (retirement_fvs growth_rate retirement_age current_tax salary_sacrifice monthly_deposit)

/-- `schedule_df = pd.concat([accumulation_df, drawdown_df])` (source line 415). -/
def schedule_df (growth_rate : ℚ) (retirement_age : ℕ) (current_tax : TaxBand)
    (salary_sacrifice : Bool) (monthly_deposit : ℚ) (retirement_growth_rate : ℚ)
    (retirement_duration : ℕ) (retirement_tax : TaxBand)
    (retirement_monthly_withdrawal : ℚ) : List MonthlyRecord :=
  accumulation_df growth_rate retirement_age current_tax salary_sacrifice monthly_deposit ++
    drawdown_df growth_rate retirement_growth_rate retirement_age retirement_duration
      current_tax salary_sacrifice monthly_deposit retirement_tax retirement_monthly_withdrawal

/-! ## Truncated ("10 years less") LISA analysis (source lines 731-877) -/

def retirement_fvs_10_years_less (growth_rate : ℚ) (retirement_age : ℕ)
    (current_tax : TaxBand) (salary_sacrifice : Bool) (monthly_deposit : ℚ)
    (v : Vehicle) : ℚ :=
  -fv (growth_rate / 100 / 12) ((retirement_age - 10) * 12)
    (monthly_gross_deposit current_tax salary_sacrifice monthly_deposit v) 0

def retirement_fvs_10_years_less_at_age (growth_rate : ℚ) (retirement_age : ℕ)
    (current_tax : TaxBand) (salary_sacrifice : Bool) (monthly_deposit : ℚ)
    (v : Vehicle) : ℚ :=
  -fv (growth_rate / 100 / 12) (10 * 12) 0
    (retirement_fvs_10_years_less growth_rate retirement_age current_tax
      salary_sacrifice monthly_deposit v)

/-- `accumulation_df.loc[:retirement_age*12-121, ...]` keeps the first
`retirement_age*12 - 120` rows (source line 807). -/
def accumulation_10_years_less_df (growth_rate : ℚ) (retirement_age : ℕ)
    (current_tax : TaxBand) (salary_sacrifice : Bool) (monthly_deposit : ℚ) :
    List MonthlyRecord :=
  (accumulation_df growth_rate retirement_age current_tax salary_sacrifice
    monthly_deposit).take (retirement_age * 12 - 120)

/-- The 120 growth-only months (source lines 811-841); months are
`np.arange(120) + retirement_age*12 - 119` and the fund exponent is
`Month - (retirement_age*12 - 120)`. -/
def accumulation_10_years_growth_df (growth_rate : ℚ) (retirement_age : ℕ)
    (current_tax : TaxBand) (salary_sacrifice : Bool) (monthly_deposit : ℚ) :
    List MonthlyRecord :=
  ((List.range 120).map (fun k => k + retirement_age * 12 - 119)).map fun mo =>
    { month := mo
      growth := growth_rate
      net_take_home := 0
      pension_deposit := 0
      lisa_deposit := 0
      isa_deposit := 0
      pension_fund := -fv (growth_rate / 100 / 12) (mo - (retirement_age * 12 - 120)) 0
        (retirement_fvs_10_years_less growth_rate retirement_age current_tax
          salary_sacrifice monthly_deposit Vehicle.pension)
      lisa_fund := -fv (growth_rate / 100 / 12) (mo - (retirement_age * 12 - 120)) 0
        (retirement_fvs_10_years_less growth_rate retirement_age current_tax
          salary_sacrifice monthly_deposit Vehicle.lisa)
      isa_fund := -fv (growth_rate / 100 / 12) (mo - (retirement_age * 12 - 120)) 0
        (retirement_fvs_10_years_less growth_rate retirement_age current_tax
          salary_sacrifice monthly_deposit Vehicle.isa) }

def drawdown_10_years_less_df (growth_rate retirement_growth_rate : ℚ)
    (retirement_age retirement_duration : ℕ) (current_tax : TaxBand)
    (salary_sacrifice : Bool) (monthly_deposit : ℚ) (retirement_tax : TaxBand)
    (retirement_monthly_withdrawal : ℚ) : List MonthlyRecord :=
  drawdown_df_gen retirement_growth_rate retirement_duration retirement_age
    retirement_tax retirement_monthly_withdrawal
    (retirement_fvs_10_years_less_at_age growth_rate retirement_age current_tax
      salary_sacrifice monthly_deposit)

/-- The truncated analysis is only computed when `retirement_age > 10`
(source line 731); otherwise the source shows an explanatory message and
computes nothing, modelled as `none`. -/
def schedule_10_years_less_df (growth_rate retirement_growth_rate : ℚ)
    (retirement_age retirement_duration : ℕ) (current_tax : TaxBand)
    (salary_sacrifice : Bool) (monthly_deposit : ℚ) (retirement_tax : TaxBand)
    (retirement_monthly_withdrawal : ℚ) : Option (List MonthlyRecord) :=
  if retirement_age ≤ 10 then none
  else some
    (accumulation_10_years_less_df growth_rate retirement_age current_tax
        salary_sacrifice monthly_deposit ++
      accumulation_10_years_growth_df growth_rate retirement_age current_tax
        salary_sacrifice monthly_deposit ++
      drawdown_10_years_less_df growth_rate retirement_growth_rate retirement_age
        retirement_duration current_tax salary_sacrifice monthly_deposit
        retirement_tax retirement_monthly_withdrawal)

/-! ## Real-valued time-value primitives

`npf.nper` (source line 271) solves with a logarithm, so it is embedded
over `ℝ`.  Its float NaN outcome (log of a non-positive argument, which
the display layer detects with `np.isnan`, source line 308) is modelled
as `none`. -/

noncomputable def fvR (rate n pmt_ pv : ℝ) : ℝ :=
  if rate = 0 then -(pv + pmt_ * n)
  else -(pv * (1 + rate) ^ n + pmt_ * ((1 + rate) ^ n - 1) / rate)

noncomputable def nper (rate pmt_ pv f : ℝ) : Option ℝ :=
  if rate = 0 then some (-(f + pv) / pmt_)
  else if 0 < (-f + pmt_ / rate) / (pv + pmt_ / rate) then
    some (Real.log ((-f + pmt_ / rate) / (pv + pmt_ / rate)) / Real.log (1 + rate))
  else none

noncomputable def pmt (rate n pv f : ℝ) : ℝ :=
  if rate = 0 then -(f + pv) / n
  else -(f + pv * (1 + rate) ^ n) / (((1 + rate) ^ n - 1) / rate)

/-! ## Spec-modelled guarded primitives -/

inductive TVError
  | InvalidRate
  deriving DecidableEq

/-- Modelled from the spec: the source delegates its future-value primitive to
an external financial library whose rate-domain guard is not part of this
repository; the spec requires failure with `InvalidRate` whenever the periodic
rate is below -1. -/
noncomputable def futureValue (periodicRate numPeriods pmt_ presentValue : ℝ) :
    Except TVError ℝ :=
  if periodicRate < -1 then Except.error TVError.InvalidRate
  else Except.ok (fvR periodicRate numPeriods pmt_ presentValue)

/-- Modelled from the spec: the source delegates its number-of-periods
primitive to an external financial library whose rate-domain guard is not part
of this repository; the spec requires failure with `InvalidRate` whenever the
periodic rate is below -1. -/
noncomputable def numberOfPeriods (periodicRate pmt_ presentValue fv_ : ℝ) :
    Except TVError (Option ℝ) :=
  if periodicRate < -1 then Except.error TVError.InvalidRate
  else Except.ok (nper periodicRate pmt_ presentValue fv_)

/-- Modelled from the spec: the source delegates its payment primitive to an
external financial library whose rate-domain guard is not part of this
repository; the spec requires failure with `InvalidRate` whenever the periodic
rate is below -1. -/
noncomputable def payment (periodicRate numPeriods presentValue fv_ : ℝ) :
    Except TVError ℝ :=
  if periodicRate < -1 then Except.error TVError.InvalidRate
  else Except.ok (pmt periodicRate numPeriods presentValue fv_)

/-! ## Helper lemmas about the annuity primitive -/

theorem neg_fv_deposit (p d : ℚ) (n : ℕ) :
    -fv p n d 0 = if p = 0 then d * n else d * ((1 + p) ^ n - 1) / p := by
  unfold fv
  split <;> ring

theorem neg_fv_growth (p pv : ℚ) (n : ℕ) : -fv p n 0 pv = pv * (1 + p) ^ n := by
  unfold fv
  by_cases h : p = 0
  · simp [h]
  · rw [if_neg h]
    ring

theorem neg_fv_zero_periods (p pmt_ pv : ℚ) : -fv p 0 pmt_ pv = pv := by
  unfold fv
  split <;> simp

theorem fv_annuity_succ (p d : ℚ) (n : ℕ) :
    -fv p (n + 1) d 0 = -fv p n d 0 * (1 + p) + d := by
  unfold fv
  by_cases h : p = 0
  · rw [if_pos h, if_pos h, h]
    push_cast
    ring
  · rw [if_neg h, if_neg h]
    field_simp
    ring

theorem fv_annuity_one (p d : ℚ) : -fv p 1 d 0 = d := by
  have h := fv_annuity_succ p d 0
  rw [neg_fv_zero_periods] at h
  simpa using h

theorem fv_drawdown_succ (p w pv : ℚ) (n : ℕ) :
    -fv p (n + 1) (-w) pv = -fv p n (-w) pv * (1 + p) - w := by
  unfold fv
  by_cases h : p = 0
  · rw [if_pos h, if_pos h, h]
    push_cast
    ring
  · rw [if_neg h, if_neg h]
    field_simp
    ring

theorem annuity_mono (p d : ℚ) (hp : 0 ≤ p) (hd : 0 ≤ d) {n1 n2 : ℕ} (h : n1 ≤ n2) :
    -fv p n1 d 0 ≤ -fv p n2 d 0 := by
  rw [neg_fv_deposit, neg_fv_deposit]
  by_cases hp0 : p = 0
  · rw [if_pos hp0, if_pos hp0]
    exact mul_le_mul_of_nonneg_left (by exact_mod_cast Nat.cast_le.mpr h) hd
  · rw [if_neg hp0, if_neg hp0]
    have h1p : (1 : ℚ) ≤ 1 + p := by linarith
    have hpow : (1 + p) ^ n1 ≤ (1 + p) ^ n2 := pow_le_pow_right₀ h1p h
    have hmul : d * ((1 + p) ^ n1 - 1) ≤ d * ((1 + p) ^ n2 - 1) :=
      mul_le_mul_of_nonneg_left (by linarith) hd
    exact div_le_div_of_nonneg_right hmul hp

theorem annuity_nonneg (p d : ℚ) (hp : 0 ≤ p) (hd : 0 ≤ d) (n : ℕ) :
    0 ≤ -fv p n d 0 := by
  have h := annuity_mono p d hp hd (Nat.zero_le n)
  rwa [show -fv p 0 d 0 = 0 from by rw [neg_fv_zero_periods]] at h

/-! ## Helper lemmas about the normalizers -/

theorem pension_monthly_net_deposit_pos (ct : TaxBand) (ss : Bool) {m : ℚ}
    (hm : 0 < m) : 0 < pension_monthly_net_deposit ct ss m := by
  unfold pension_monthly_net_deposit
  cases ct <;> cases ss <;> simp <;>
    exact div_pos hm
      (by norm_num [brt_tax_rate, hrt_tax_rate, brt_ni_rate, hrt_ni_rate])

theorem monthly_gross_deposit_pos (ct : TaxBand) (ss : Bool) {m : ℚ}
    (hm : 0 < m) (v : Vehicle) : 0 < monthly_gross_deposit ct ss m v := by
  cases v with
  | pension => exact pension_monthly_net_deposit_pos ct ss hm
  | lisa =>
    simp only [monthly_gross_deposit, lisa_monthly_deposit]
    exact mul_pos hm (by norm_num)
  | isa => exact hm

theorem monthly_gross_deposit_nonneg (ct : TaxBand) (ss : Bool) {m : ℚ}
    (hm : 0 ≤ m) (v : Vehicle) : 0 ≤ monthly_gross_deposit ct ss m v := by
  cases v with
  | pension =>
    unfold monthly_gross_deposit pension_monthly_net_deposit
    cases ct <;> cases ss <;> simp <;>
      exact div_nonneg hm
        (by norm_num [brt_tax_rate, hrt_tax_rate, brt_ni_rate, hrt_ni_rate])
  | lisa =>
    simp only [monthly_gross_deposit, lisa_monthly_deposit]
    exact mul_nonneg hm (by norm_num)
  | isa => exact hm

theorem pension_monthly_net_withdrawal_pos (rt : TaxBand) {w : ℚ}
    (hw : 0 < w) : 0 < pension_monthly_net_withdrawal rt w := by
  unfold pension_monthly_net_withdrawal
  cases rt <;> simp <;>
    exact div_pos hw (by norm_num [brt_tax_rate, hrt_tax_rate])

/-! ## C1: contribution normalization -/

/-- C1: for every net monthly deposit, the contribution normalization returns
`net / (1 - taxRate - niRate)` for a salary-sacrifice pension,
`net / (1 - taxRate)` for a pension without salary sacrifice (with
(taxRate, niRate) = (0.20, 0.08) for Basic and (0.40, 0.02) for Higher,
selected by the current band), `net * 1.25` for the LISA independent of the
band, and `net` unchanged for the ISA. -/
theorem contribution_normalization (m : ℚ) (ct : TaxBand) (ss : Bool) :
    pension_monthly_net_deposit TaxBand.BRT true m = m / (1 - 0.20 - 0.08) ∧
    pension_monthly_net_deposit TaxBand.BRT false m = m / (1 - 0.20) ∧
    pension_monthly_net_deposit TaxBand.HRT true m = m / (1 - 0.40 - 0.02) ∧
    pension_monthly_net_deposit TaxBand.HRT false m = m / (1 - 0.40) ∧
    monthly_gross_deposit ct ss m Vehicle.lisa = m * 1.25 ∧
    monthly_gross_deposit ct ss m Vehicle.isa = m := by
  refine ⟨?_, ?_, ?_, ?_, ?_, rfl⟩
  · rw [show pension_monthly_net_deposit TaxBand.BRT true m
        = m / (1 - brt_tax_rate - brt_ni_rate) from rfl]
    norm_num [brt_tax_rate, brt_ni_rate]
  · rw [show pension_monthly_net_deposit TaxBand.BRT false m
        = m / (1 - brt_tax_rate) from rfl]
    norm_num [brt_tax_rate]
  · rw [show pension_monthly_net_deposit TaxBand.HRT true m
        = m / (1 - hrt_tax_rate - hrt_ni_rate) from rfl]
    norm_num [hrt_tax_rate, hrt_ni_rate]
  · rw [show pension_monthly_net_deposit TaxBand.HRT false m
        = m / (1 - hrt_tax_rate) from rfl]
    norm_num [hrt_tax_rate]
  · norm_num [monthly_gross_deposit, lisa_monthly_deposit]

/-! ## C2: withdrawal normalization -/

/-- C2: for every desired net monthly withdrawal and retirement band, the
withdrawal normalization returns `net / (1 - 0.75 * taxRate)` for the pension
(taxRate 0.20 Basic, 0.40 Higher) and `net` unchanged for LISA and ISA; in
particular for net £200/month at Basic rate the pension gross withdrawal is
200/0.85 = 4000/17, which rounds to £235.29 at two decimal places. -/
theorem withdrawal_normalization (w : ℚ) (rt : TaxBand) :
    pension_monthly_net_withdrawal TaxBand.BRT w = w / (1 - 0.75 * 0.20) ∧
    pension_monthly_net_withdrawal TaxBand.HRT w = w / (1 - 0.75 * 0.40) ∧
    monthly_gross_withdrawal rt w Vehicle.lisa = w ∧
    monthly_gross_withdrawal rt w Vehicle.isa = w ∧
    pension_monthly_net_withdrawal TaxBand.BRT 200 = 200 / 0.85 ∧
    pension_monthly_net_withdrawal TaxBand.BRT 200 = 4000 / 17 ∧
    |pension_monthly_net_withdrawal TaxBand.BRT 200 - 235.29| < 0.005 := by
  refine ⟨?_, ?_, rfl, rfl, ?_, ?_, ?_⟩
  · rw [show pension_monthly_net_withdrawal TaxBand.BRT w
        = w / (1 - 0.75 * brt_tax_rate) from rfl]
    norm_num [brt_tax_rate]
  · rw [show pension_monthly_net_withdrawal TaxBand.HRT w
        = w / (1 - 0.75 * hrt_tax_rate) from rfl]
    norm_num [hrt_tax_rate]
  · rw [show pension_monthly_net_withdrawal TaxBand.BRT 200
        = 200 / (1 - 0.75 * brt_tax_rate) from rfl]
    norm_num [brt_tax_rate]
  · rw [show pension_monthly_net_withdrawal TaxBand.BRT 200
        = 200 / (1 - 0.75 * brt_tax_rate) from rfl]
    norm_num [brt_tax_rate]
  · rw [show pension_monthly_net_withdrawal TaxBand.BRT 200
        = 200 / (1 - 0.75 * brt_tax_rate) from rfl]
    norm_num [brt_tax_rate, abs_lt]

/-! ## C6: InvalidRate guard on the time-value primitives -/

/-- C6: all three time-value primitives fail with an explicit `InvalidRate`
error whenever the periodic rate is below -1, instead of computing silently. -/
theorem invalid_rate_guard (rate : ℝ) (hrate : rate < -1) (n pmt_ pv f : ℝ) :
    futureValue rate n pmt_ pv = Except.error TVError.InvalidRate ∧
    numberOfPeriods rate pmt_ pv f = Except.error TVError.InvalidRate ∧
    payment rate n pv f = Except.error TVError.InvalidRate := by
  refine ⟨?_, ?_, ?_⟩ <;>
    simp only [futureValue, numberOfPeriods, payment, if_pos hrate]

/-- C6 witness at rate -2. -/
theorem invalid_rate_guard_witness :
    (-2 : ℝ) < -1 ∧
    futureValue (-2) 1 1 1 = Except.error TVError.InvalidRate ∧
    numberOfPeriods (-2) 1 1 0 = Except.error TVError.InvalidRate ∧
    payment (-2) 1 1 0 = Except.error TVError.InvalidRate := by
  have h : (-2 : ℝ) < -1 := by norm_num
  exact ⟨h, (invalid_rate_guard (-2) h 1 1 1 0).1,
    (invalid_rate_guard (-2) h 1 1 1 0).2.1,
    (invalid_rate_guard (-2) h 1 1 1 0).2.2⟩

/-! ## C7: terminal accumulation value is monotone in years-to-retirement -/

/-- C7: for every account, nonnegative deposit and nonnegative annual growth
rate, the terminal accumulation fund value never decreases when
years-to-retirement increases. -/
theorem terminal_value_monotone (g m : ℚ) (ct : TaxBand) (ss : Bool) (v : Vehicle)
    (hg : 0 ≤ g) (hm : 0 ≤ m) {y1 y2 : ℕ} (h : y1 ≤ y2) :
    retirement_fvs g y1 ct ss m v ≤ retirement_fvs g y2 ct ss m v := by
  unfold retirement_fvs
  exact annuity_mono (g / 100 / 12) (monthly_gross_deposit ct ss m v)
    (by positivity) (monthly_gross_deposit_nonneg ct ss hm v)
    (Nat.mul_le_mul_right 12 h)

/-- C7 witness: ISA, deposit £200, growth 5%, 1 versus 2 years. -/
theorem terminal_value_monotone_witness :
    (0 : ℚ) ≤ 5 ∧ (0 : ℚ) ≤ 200 ∧ 1 ≤ 2 ∧
    retirement_fvs 5 1 TaxBand.BRT false 200 Vehicle.isa ≤
      retirement_fvs 5 2 TaxBand.BRT false 200 Vehicle.isa :=
  ⟨by norm_num, by norm_num, by norm_num,
    terminal_value_monotone 5 200 TaxBand.BRT false Vehicle.isa
      (by norm_num) (by norm_num) (by norm_num)⟩

/-! ## C10: the truncated variant's terminal value never exceeds the full one -/

/-- C10: for every account, years-to-retirement above 10 and nonnegative
growth rate, the truncated variant's value at the retirement boundary
(contributions for `(years - 10) * 12` months, then 120 growth-only months)
is at most the full-window terminal value under the same inputs. -/
theorem truncated_terminal_le_full (g m : ℚ) (ct : TaxBand) (ss : Bool)
    (v : Vehicle) (y : ℕ) (hy : 10 < y) (hg : 0 ≤ g) (hm : 0 ≤ m) :
    retirement_fvs_10_years_less_at_age g y ct ss m v ≤
      retirement_fvs g y ct ss m v := by
  unfold retirement_fvs_10_years_less_at_age retirement_fvs
  rw [neg_fv_growth]
  unfold retirement_fvs_10_years_less
  rw [neg_fv_deposit, neg_fv_deposit]
  set p : ℚ := g / 100 / 12 with hpdef
  set d : ℚ := monthly_gross_deposit ct ss m v with hddef
  have hp : 0 ≤ p := by positivity
  have hd : 0 ≤ d := monthly_gross_deposit_nonneg ct ss hm v
  by_cases hp0 : p = 0
  · rw [if_pos hp0, if_pos hp0, hp0]
    have hle : ((y - 10) * 12 : ℕ) ≤ (y * 12 : ℕ) := by omega
    calc d * ((y - 10) * 12 : ℕ) * (1 + 0) ^ (10 * 12)
        = d * ((y - 10) * 12 : ℕ) := by norm_num
      _ ≤ d * (y * 12 : ℕ) :=
          mul_le_mul_of_nonneg_left (by exact_mod_cast Nat.cast_le.mpr hle) hd
  · rw [if_neg hp0, if_neg hp0]
    have hppos : 0 < p := lt_of_le_of_ne hp (Ne.symm hp0)
    have h1p : (1 : ℚ) ≤ 1 + p := by linarith
    have hone : (1 : ℚ) ≤ (1 + p) ^ (10 * 12) := by
      have := pow_le_pow_right₀ h1p (Nat.zero_le (10 * 12))
      simpa using this
    have hsplit : (y - 10) * 12 + 10 * 12 = y * 12 := by omega
    have hstep : d * ((1 + p) ^ ((y - 10) * 12) - 1) / p * (1 + p) ^ (10 * 12)
        = d * ((1 + p) ^ (y * 12) - (1 + p) ^ (10 * 12)) / p := by
      rw [← hsplit, pow_add]
      field_simp
      ring
    rw [hstep]
    have hsub : d * ((1 + p) ^ (y * 12) - (1 + p) ^ (10 * 12))
        ≤ d * ((1 + p) ^ (y * 12) - 1) :=
      mul_le_mul_of_nonneg_left (by linarith) hd
    exact div_le_div_of_nonneg_right hsub hp

/-- C10 witness: ISA, deposit £1, growth 0%, 12 years. -/
theorem truncated_terminal_le_full_witness :
    (10 : ℕ) < 12 ∧ (0 : ℚ) ≤ 0 ∧ (0 : ℚ) ≤ 1 ∧
    retirement_fvs_10_years_less_at_age 0 12 TaxBand.BRT false 1 Vehicle.isa ≤
      retirement_fvs 0 12 TaxBand.BRT false 1 Vehicle.isa :=
  ⟨by norm_num, by norm_num, by norm_num,
    truncated_terminal_le_full 0 1 TaxBand.BRT false Vehicle.isa 12
      (by norm_num) (by norm_num) (by norm_num)⟩

/-! ## C3: number-of-periods sentinel and round-trip -/

theorem nper_roundtrip_algebra (rate w pv : ℝ) (hrne : rate ≠ 0)
    (hpzne : pv + -w / rate ≠ 0) :
    -(pv * (-w / rate / (pv + -w / rate)) +
        -w * (-w / rate / (pv + -w / rate) - 1) / rate) = 0 := by
  have key : pv + -w / rate = (pv * rate - w) / rate := by
    field_simp
    ring
  have hDne : pv * rate - w ≠ 0 := fun h => hpzne (by rw [key, h, zero_div])
  rw [key]
  field_simp
  ring

/-- C3: for a positive requested payment `w`, positive fund `pv` and
nonnegative periodic rate, the number-of-periods solve returns the indefinite
sentinel (`none`, modelling the float NaN the display layer detects with
`np.isnan`) if and only if `pv * rate ≥ w`; otherwise the finite period
count, fed back into the future-value primitive with the same rate, payment
and present value, yields a fund value of exactly 0 in real arithmetic
(within any relative tolerance, in particular 1e-6). -/
theorem nper_sentinel_iff_roundtrip (rate w pv : ℝ)
    (hrate : 0 ≤ rate) (hw : 0 < w) (hpv : 0 < pv) :
    (nper rate (-w) pv 0 = none ↔ w ≤ pv * rate) ∧
    (∀ n, nper rate (-w) pv 0 = some n → fvR rate n (-w) pv = 0) := by
  rcases eq_or_lt_of_le hrate with h0 | hpos
  · constructor
    · constructor
      · intro hnone
        rw [nper, if_pos h0.symm] at hnone
        cases hnone
      · intro hle
        rw [← h0, mul_zero] at hle
        linarith
    · intro n hn
      rw [nper, if_pos h0.symm] at hn
      have hn' : n = -(0 + pv) / -w := (Option.some.inj hn).symm
      rw [fvR, if_pos h0.symm, hn']
      have hwne : w ≠ 0 := ne_of_gt hw
      field_simp
      ring
  · have hrne : rate ≠ 0 := ne_of_gt hpos
    have h1r : (0 : ℝ) < 1 + rate := by linarith
    have hlog : 0 < Real.log (1 + rate) := Real.log_pos (by linarith)
    have hzneg : -w / rate < 0 := div_neg_of_neg_of_pos (by linarith) hpos
    have hpzeq : pv + -w / rate = (pv * rate - w) / rate := by
      field_simp
      ring
    by_cases hcase : w ≤ pv * rate
    · have hpz : 0 ≤ pv + -w / rate := by
        rw [hpzeq]
        exact div_nonneg (by linarith) (le_of_lt hpos)
      have hle0 : -w / rate / (pv + -w / rate) ≤ 0 := by
        rcases eq_or_lt_of_le hpz with he | hlt
        · rw [← he, div_zero]
        · exact le_of_lt (div_neg_of_neg_of_pos hzneg hlt)
      have hnone : nper rate (-w) pv 0 = none := by
        rw [nper, if_neg hrne]
        simp only [neg_zero, zero_add]
        rw [if_neg (not_lt.mpr hle0)]
      refine ⟨⟨fun _ => hcase, fun _ => hnone⟩, ?_⟩
      intro n hn
      rw [hnone] at hn
      cases hn
    · push_neg at hcase
      have hpz : pv + -w / rate < 0 := by
        rw [hpzeq]
        exact div_neg_of_neg_of_pos (by linarith) hpos
      have hratio : 0 < -w / rate / (pv + -w / rate) :=
        div_pos_of_neg_of_neg hzneg hpz
      have hsome : nper rate (-w) pv 0 =
          some (Real.log (-w / rate / (pv + -w / rate)) / Real.log (1 + rate)) := by
        rw [nper, if_neg hrne]
        simp only [neg_zero, zero_add]
        rw [if_pos hratio]
      constructor
      · constructor
        · intro hn
          rw [hsome] at hn
          cases hn
        · intro hle
          linarith
      · intro n hn
        rw [hsome] at hn
        have hn' : Real.log (-w / rate / (pv + -w / rate)) / Real.log (1 + rate)
            = n := Option.some.inj hn
        have hpow : (1 + rate) ^ n = -w / rate / (pv + -w / rate) := by
          rw [← hn', Real.rpow_def_of_pos h1r]
          have hcancel : Real.log (1 + rate) *
              (Real.log (-w / rate / (pv + -w / rate)) / Real.log (1 + rate))
              = Real.log (-w / rate / (pv + -w / rate)) := by
            field_simp
          rw [hcancel, Real.exp_log hratio]
        rw [fvR, if_neg hrne, hpow]
        exact nper_roundtrip_algebra rate w pv hrne (ne_of_lt hpz)

/-- C3 witness: rate 0.01, fund 100, withdrawal 2 (finite side of the iff,
hypotheses discharged at concrete values). -/
theorem nper_sentinel_iff_roundtrip_witness :
    (0 : ℝ) ≤ 0.01 ∧ (0 : ℝ) < 2 ∧ (0 : ℝ) < 100 ∧
    ((nper 0.01 (-2) 100 0 = none ↔ (2 : ℝ) ≤ 100 * 0.01) ∧
      (∀ n, nper 0.01 (-2) 100 0 = some n → fvR 0.01 n (-2) 100 = 0)) :=
  ⟨by norm_num, by norm_num, by norm_num,
    nper_sentinel_iff_roundtrip 0.01 2 100 (by norm_num) (by norm_num) (by norm_num)⟩

/-! ## C5: every schedule row obeys the compounding recurrence -/

theorem accumulation_df_get (g m : ℚ) (ct : TaxBand) (ss : Bool) (y : ℕ)
    (i : ℕ) (h : i < (accumulation_df g y ct ss m).length) :
    (accumulation_df g y ct ss m).get ⟨i, h⟩ =
      { month := i + 1
        growth := g
        net_take_home := -m
        pension_deposit := pension_monthly_net_deposit ct ss m
        lisa_deposit := lisa_monthly_deposit m
        isa_deposit := m
        pension_fund := -fv (g / 100 / 12) (i + 1) (pension_monthly_net_deposit ct ss m) 0
        lisa_fund := -fv (g / 100 / 12) (i + 1) (lisa_monthly_deposit m) 0
        isa_fund := -fv (g / 100 / 12) (i + 1) m 0 } := by
  simp [accumulation_df, accumulation_months, List.get_eq_getElem]

theorem drawdown_df_gen_get (rg : ℚ) (dur y : ℕ) (rt : TaxBand) (w : ℚ)
    (pv : Vehicle → ℚ) (i : ℕ) (h : i < (drawdown_df_gen rg dur y rt w pv).length) :
    (drawdown_df_gen rg dur y rt w pv).get ⟨i, h⟩ =
      { month := i + 1 + y * 12
        growth := rg
        net_take_home := w
        pension_deposit := -(pension_monthly_net_withdrawal rt w)
        lisa_deposit := -w
        isa_deposit := -w
        pension_fund := -fv (rg / 100 / 12) (i + 1)
          (-(pension_monthly_net_withdrawal rt w)) (pv Vehicle.pension)
        lisa_fund := -fv (rg / 100 / 12) (i + 1) (-w) (pv Vehicle.lisa)
        isa_fund := -fv (rg / 100 / 12) (i + 1) (-w) (pv Vehicle.isa) } := by
  simp [drawdown_df_gen, drawdown_months, List.get_eq_getElem, Nat.add_sub_cancel]

/-- C5: each row's fund balance is the previous balance compounded one period
at the periodic rate in effect, plus the gross deposit (accumulation) or
minus the gross withdrawal (drawdown); the first accumulation row equals the
gross deposit with no growth, and the first drawdown row compounds that
account's terminal accumulation value. -/
theorem schedule_fund_recurrence (g rg m w : ℚ) (ct rt : TaxBand) (ss : Bool)
    (y dur : ℕ) :
    (∀ i (h : i + 1 < (accumulation_df g y ct ss m).length),
      ((accumulation_df g y ct ss m).get ⟨i + 1, h⟩).pension_fund =
        ((accumulation_df g y ct ss m).get ⟨i, Nat.lt_of_succ_lt h⟩).pension_fund
          * (1 + g / 100 / 12) + pension_monthly_net_deposit ct ss m ∧
      ((accumulation_df g y ct ss m).get ⟨i + 1, h⟩).lisa_fund =
        ((accumulation_df g y ct ss m).get ⟨i, Nat.lt_of_succ_lt h⟩).lisa_fund
          * (1 + g / 100 / 12) + lisa_monthly_deposit m ∧
      ((accumulation_df g y ct ss m).get ⟨i + 1, h⟩).isa_fund =
        ((accumulation_df g y ct ss m).get ⟨i, Nat.lt_of_succ_lt h⟩).isa_fund
          * (1 + g / 100 / 12) + m) ∧
    (∀ h : 0 < (accumulation_df g y ct ss m).length,
      ((accumulation_df g y ct ss m).get ⟨0, h⟩).pension_fund =
        pension_monthly_net_deposit ct ss m ∧
      ((accumulation_df g y ct ss m).get ⟨0, h⟩).lisa_fund = lisa_monthly_deposit m ∧
      ((accumulation_df g y ct ss m).get ⟨0, h⟩).isa_fund = m) ∧
    (∀ i (h : i + 1 < (drawdown_df g rg y dur ct ss m rt w).length),
      ((drawdown_df g rg y dur ct ss m rt w).get ⟨i + 1, h⟩).pension_fund =
        ((drawdown_df g rg y dur ct ss m rt w).get ⟨i, Nat.lt_of_succ_lt h⟩).pension_fund
          * (1 + rg / 100 / 12) - pension_monthly_net_withdrawal rt w ∧
      ((drawdown_df g rg y dur ct ss m rt w).get ⟨i + 1, h⟩).lisa_fund =
        ((drawdown_df g rg y dur ct ss m rt w).get ⟨i, Nat.lt_of_succ_lt h⟩).lisa_fund
          * (1 + rg / 100 / 12) - w ∧
      ((drawdown_df g rg y dur ct ss m rt w).get ⟨i + 1, h⟩).isa_fund =
        ((drawdown_df g rg y dur ct ss m rt w).get ⟨i, Nat.lt_of_succ_lt h⟩).isa_fund
          * (1 + rg / 100 / 12) - w) ∧
    (∀ h : 0 < (drawdown_df g rg y dur ct ss m rt w).length,
      ((drawdown_df g rg y dur ct ss m rt w).get ⟨0, h⟩).pension_fund =
        retirement_fvs g y ct ss m Vehicle.pension * (1 + rg / 100 / 12)
          - pension_monthly_net_withdrawal rt w ∧
      ((drawdown_df g rg y dur ct ss m rt w).get ⟨0, h⟩).lisa_fund =
        retirement_fvs g y ct ss m Vehicle.lisa * (1 + rg / 100 / 12) - w ∧
      ((drawdown_df g rg y dur ct ss m rt w).get ⟨0, h⟩).isa_fund =
        retirement_fvs g y ct ss m Vehicle.isa * (1 + rg / 100 / 12) - w) := by
  refine ⟨?_, ?_, ?_, ?_⟩
  · intro i h
    rw [accumulation_df_get, accumulation_df_get]
    exact ⟨fv_annuity_succ _ _ _, fv_annuity_succ _ _ _, fv_annuity_succ _ _ _⟩
  · intro h
    rw [accumulation_df_get]
    exact ⟨fv_annuity_one _ _, fv_annuity_one _ _, fv_annuity_one _ _⟩
  · intro i h
    unfold drawdown_df at h ⊢
    rw [drawdown_df_gen_get, drawdown_df_gen_get]
    exact ⟨fv_drawdown_succ _ _ _ _, fv_drawdown_succ _ _ _ _, fv_drawdown_succ _ _ _ _⟩
  · intro h
    unfold drawdown_df at h ⊢
    rw [drawdown_df_gen_get]
    refine ⟨?_, ?_, ?_⟩
    · have hstep := fv_drawdown_succ (rg / 100 / 12)
        (pension_monthly_net_withdrawal rt w)
        (retirement_fvs g y ct ss m Vehicle.pension) 0
      rw [neg_fv_zero_periods] at hstep
      exact hstep
    · have hstep := fv_drawdown_succ (rg / 100 / 12) w
        (retirement_fvs g y ct ss m Vehicle.lisa) 0
      rw [neg_fv_zero_periods] at hstep
      exact hstep
    · have hstep := fv_drawdown_succ (rg / 100 / 12) w
        (retirement_fvs g y ct ss m Vehicle.isa) 0
      rw [neg_fv_zero_periods] at hstep
      exact hstep

/-- C5 witness: concrete rows at 0% growth, deposit £1, withdrawal £2. -/
theorem schedule_fund_recurrence_witness :
    ((accumulation_df 0 1 TaxBand.BRT false 1).get ⟨1, by decide⟩).pension_fund =
      ((accumulation_df 0 1 TaxBand.BRT false 1).get ⟨0, by decide⟩).pension_fund
        * (1 + 0 / 100 / 12) + pension_monthly_net_deposit TaxBand.BRT false 1 ∧
    ((drawdown_df 0 0 1 1 TaxBand.BRT false 1 TaxBand.BRT 2).get ⟨0, by decide⟩).pension_fund =
      retirement_fvs 0 1 TaxBand.BRT false 1 Vehicle.pension * (1 + 0 / 100 / 12)
        - pension_monthly_net_withdrawal TaxBand.BRT 2 :=
  ⟨((schedule_fund_recurrence 0 0 1 2 TaxBand.BRT TaxBand.BRT false 1 1).1 0 (by decide)).1,
    ((schedule_fund_recurrence 0 0 1 2 TaxBand.BRT TaxBand.BRT false 1 1).2.2.2 (by decide)).1⟩

/-! ## C9: sign conventions of the schedule rows -/

/-- C9 counterexample: with a £1 monthly deposit for 1 year at 0% growth and
a £13 monthly withdrawal, the concatenated schedule contains a row whose ISA
fund balance is negative (the fund is depleted during drawdown), refuting the
claim that every monetary fund balance in every schedule row is
non-negative. -/
theorem sign_convention_counterexample :
    ∃ rec ∈ schedule_df 0 1 TaxBand.BRT false 1 0 1 TaxBand.BRT 13,
      rec.isa_fund < 0 := by
  refine ⟨_, List.mem_append_right _
    (List.mem_map_of_mem _ (show 1 ∈ drawdown_months 1 by decide)), ?_⟩
  norm_num [fv, retirement_fvs, monthly_gross_deposit]

/-- C9 (amended): in every accumulation row the gross deposits and fund
balances are non-negative (deposits strictly positive) and the saver's net
cash flow is negative; in every drawdown row the net cash flow is positive
and the gross withdrawal magnitudes (the negated deposit fields) are
positive.  Drawdown fund balances, however, may become negative once the
fund is depleted. -/
theorem sign_convention_amended (g rg m w : ℚ) (ct rt : TaxBand) (ss : Bool)
    (y dur : ℕ) (hg : 0 ≤ g) (hm : 0 < m) (hw : 0 < w) :
    (∀ rec ∈ accumulation_df g y ct ss m,
      rec.net_take_home < 0 ∧ 0 < rec.pension_deposit ∧ 0 < rec.lisa_deposit ∧
      0 < rec.isa_deposit ∧ 0 ≤ rec.pension_fund ∧ 0 ≤ rec.lisa_fund ∧
      0 ≤ rec.isa_fund) ∧
    (∀ rec ∈ drawdown_df g rg y dur ct ss m rt w,
      0 < rec.net_take_home ∧ 0 < -rec.pension_deposit ∧ 0 < -rec.lisa_deposit ∧
      0 < -rec.isa_deposit) := by
  have hp : 0 ≤ g / 100 / 12 := by positivity
  constructor
  · intro rec hrec
    obtain ⟨mo, _, rfl⟩ := List.mem_map.mp hrec
    refine ⟨by simpa using hm, pension_monthly_net_deposit_pos ct ss hm, ?_, hm,
      ?_, ?_, ?_⟩
    · simpa [lisa_monthly_deposit] using mul_pos hm (by norm_num : (0 : ℚ) < 1.25)
    · exact annuity_nonneg _ _ hp (le_of_lt (pension_monthly_net_deposit_pos ct ss hm)) mo
    · exact annuity_nonneg _ _ hp
        (le_of_lt (mul_pos hm (by norm_num : (0 : ℚ) < 1.25))) mo
    · exact annuity_nonneg _ _ hp (le_of_lt hm) mo
  · intro rec hrec
    obtain ⟨mo, _, rfl⟩ := List.mem_map.mp hrec
    exact ⟨hw, by simpa using pension_monthly_net_withdrawal_pos rt hw,
      by simpa using hw, by simpa using hw⟩

/-- C9 (amended) witness: the first accumulation row at deposit £1, 0%
growth, withdrawal £13. -/
theorem sign_convention_amended_witness :
    (0 : ℚ) ≤ 0 ∧ (0 : ℚ) < 1 ∧ (0 : ℚ) < 13 ∧
    (0 : ℚ) ≤ (MonthlyRecord.mk 1 0 (-1) (5/4) (5/4) 1 (5/4) (5/4) 1).isa_fund := by
  refine ⟨le_refl 0, by norm_num, by norm_num, ?_⟩
  refine ((sign_convention_amended 0 0 1 13 TaxBand.BRT TaxBand.BRT false 1 1
      (le_refl 0) (by norm_num) (by norm_num)).1
    (MonthlyRecord.mk 1 0 (-1) (5/4) (5/4) 1 (5/4) (5/4) 1) ?_).2.2.2.2.2.2
  refine List.mem_map.mpr ⟨1, ?_, ?_⟩
  · decide
  · norm_num [pension_monthly_net_deposit, lisa_monthly_deposit, brt_tax_rate,
      brt_ni_rate, fv, MonthlyRecord.mk.injEq]

/-! ## C4: availability and shape of the truncated schedule -/

/-- C4: the truncated analysis is unavailable (`none`) exactly when
years-to-retirement is at most 10; otherwise its contribution phase has
exactly `(years - 10) * 12` rows, followed by exactly 120 growth-only rows
(zero deposits and zero net cash flow, all three accounts compounded
identically from their phase-start values) whose months run up to the
retirement boundary `(years - 10) * 12 + 120 = years * 12`. -/
theorem truncated_schedule_shape (g rg m w : ℚ) (ct rt : TaxBand) (ss : Bool)
    (y dur : ℕ) :
    (schedule_10_years_less_df g rg y dur ct ss m rt w = none ↔ y ≤ 10) ∧
    (10 < y →
      (accumulation_10_years_less_df g y ct ss m).length = (y - 10) * 12 ∧
      (accumulation_10_years_growth_df g y ct ss m).length = 120 ∧
      (y - 10) * 12 + 120 = y * 12 ∧
      accumulation_10_years_growth_df g y ct ss m =
        (List.range 120).map (fun k =>
          { month := (y - 10) * 12 + (k + 1)
            growth := g
            net_take_home := 0
            pension_deposit := 0
            lisa_deposit := 0
            isa_deposit := 0
            pension_fund := retirement_fvs_10_years_less g y ct ss m Vehicle.pension
              * (1 + g / 100 / 12) ^ (k + 1)
            lisa_fund := retirement_fvs_10_years_less g y ct ss m Vehicle.lisa
              * (1 + g / 100 / 12) ^ (k + 1)
            isa_fund := retirement_fvs_10_years_less g y ct ss m Vehicle.isa
              * (1 + g / 100 / 12) ^ (k + 1) })) := by
  constructor
  · by_cases h : y ≤ 10
    · simp [schedule_10_years_less_df, h]
    · simp [schedule_10_years_less_df, h]
  · intro hy
    refine ⟨?_, ?_, by omega, ?_⟩
    · unfold accumulation_10_years_less_df accumulation_df accumulation_months
      simp only [List.length_take, List.length_map, List.length_range]
      omega
    · simp [accumulation_10_years_growth_df]
    · unfold accumulation_10_years_growth_df
      rw [List.map_map]
      refine List.map_congr_left ?_
      intro k hk
      have hk' : k < 120 := List.mem_range.mp hk
      have hexp : k + y * 12 - 119 - (y * 12 - 120) = k + 1 := by omega
      have hmo : k + y * 12 - 119 = (y - 10) * 12 + (k + 1) := by omega
      simp only [Function.comp_apply]
      rw [hexp, hmo, neg_fv_growth, neg_fv_growth, neg_fv_growth]

/-- C4 witness at 12 years to retirement. -/
theorem truncated_schedule_shape_witness :
    (10 : ℕ) < 12 ∧
    (accumulation_10_years_less_df 5 12 TaxBand.BRT true 100).length = (12 - 10) * 12 :=
  ⟨by norm_num,
    ((truncated_schedule_shape 5 0 100 1 TaxBand.BRT TaxBand.BRT true 12 1).2
      (by norm_num)).1⟩

/-! ## C8: month indices are 1-based, consecutive, and phase-contiguous -/

theorem range_map_add_one_append (a b : ℕ) :
    (List.range (a + b)).map (· + 1) =
      (List.range a).map (· + 1) ++ (List.range b).map (fun k => k + 1 + a) := by
  rw [List.range_add, List.map_append, List.map_map]
  congr 1
  refine List.map_congr_left ?_
  intro k _
  show a + k + 1 = k + 1 + a
  omega

theorem accumulation_df_months (g m : ℚ) (ct : TaxBand) (ss : Bool) (y : ℕ) :
    (accumulation_df g y ct ss m).map MonthlyRecord.month =
      (List.range (y * 12)).map (· + 1) := by
  unfold accumulation_df accumulation_months
  rw [List.map_map, List.map_map]
  rfl

theorem drawdown_df_gen_months (rg : ℚ) (dur y : ℕ) (rt : TaxBand) (w : ℚ)
    (pv : Vehicle → ℚ) :
    (drawdown_df_gen rg dur y rt w pv).map MonthlyRecord.month =
      (List.range (dur * 12)).map (fun k => k + 1 + y * 12) := by
  unfold drawdown_df_gen drawdown_months
  rw [List.map_map, List.map_map]
  rfl

/-- C8: both the standard concatenated schedule and (when defined) the
truncated variant's three concatenated sub-phases produce rows whose 1-based
month indices are exactly `1, 2, ..., (years + drawdownYears) * 12` — strictly
increasing in steps of one, with no gaps and no discontinuity at the phase
boundaries. -/
theorem month_indices_contiguous (g rg m w : ℚ) (ct rt : TaxBand) (ss : Bool)
    (y dur : ℕ) :
    (schedule_df g y ct ss m rg dur rt w).map MonthlyRecord.month =
      (List.range ((y + dur) * 12)).map (· + 1) ∧
    (10 < y → ∀ l, schedule_10_years_less_df g rg y dur ct ss m rt w = some l →
      l.map MonthlyRecord.month = (List.range ((y + dur) * 12)).map (· + 1)) := by
  constructor
  · unfold schedule_df drawdown_df
    rw [List.map_append, accumulation_df_months, drawdown_df_gen_months]
    rw [show (y + dur) * 12 = y * 12 + dur * 12 by ring]
    rw [range_map_add_one_append]
  · intro hy l hl
    rw [schedule_10_years_less_df, if_neg (by omega)] at hl
    have hleq := Option.some.inj hl
    subst hleq
    have hA : (accumulation_10_years_less_df g y ct ss m).map MonthlyRecord.month =
        (List.range (y * 12 - 120)).map (· + 1) := by
      unfold accumulation_10_years_less_df
      rw [List.map_take, accumulation_df_months, ← List.map_take, List.take_range]
      rw [show min (y * 12 - 120) (y * 12) = y * 12 - 120 from by omega]
    have hG : (accumulation_10_years_growth_df g y ct ss m).map MonthlyRecord.month =
        (List.range 120).map (fun k => k + 1 + (y * 12 - 120)) := by
      unfold accumulation_10_years_growth_df
      rw [List.map_map, List.map_map]
      refine List.map_congr_left ?_
      intro k hk
      have hk' := List.mem_range.mp hk
      show k + y * 12 - 119 = k + 1 + (y * 12 - 120)
      omega
    have hD : (drawdown_10_years_less_df g rg y dur ct ss m rt w).map
        MonthlyRecord.month = (List.range (dur * 12)).map (fun k => k + 1 + y * 12) := by
      unfold drawdown_10_years_less_df
      rw [drawdown_df_gen_months]
    rw [List.map_append, List.map_append, hA, hG, hD]
    rw [show (y + dur) * 12 = (y * 12 - 120) + (120 + dur * 12) from by omega]
    rw [range_map_add_one_append, List.range_add, List.map_append, List.map_map]
    rw [← List.append_assoc]
    congr 1
    refine List.map_congr_left ?_
    intro k _
    show k + 1 + y * 12 = 120 + k + 1 + (y * 12 - 120)
    omega

/-- C8 witness at 11 years to retirement, 1 drawdown year. -/
theorem month_indices_contiguous_witness :
    (10 : ℕ) < 11 ∧
    schedule_10_years_less_df 0 0 11 1 TaxBand.BRT false 1 TaxBand.BRT 1 =
      some (accumulation_10_years_less_df 0 11 TaxBand.BRT false 1 ++
        accumulation_10_years_growth_df 0 11 TaxBand.BRT false 1 ++
        drawdown_10_years_less_df 0 0 11 1 TaxBand.BRT false 1 TaxBand.BRT 1) ∧
    (accumulation_10_years_less_df 0 11 TaxBand.BRT false 1 ++
        accumulation_10_years_growth_df 0 11 TaxBand.BRT false 1 ++
        drawdown_10_years_less_df 0 0 11 1 TaxBand.BRT false 1 TaxBand.BRT 1).map
      MonthlyRecord.month = (List.range ((11 + 1) * 12)).map (· + 1) :=
  ⟨by norm_num,
    by rw [schedule_10_years_less_df, if_neg (by norm_num)],
    (month_indices_contiguous 0 0 1 1 TaxBand.BRT TaxBand.BRT false 11 1).2
      (by norm_num) _ (by rw [schedule_10_years_less_df, if_neg (by norm_num)])⟩

end PensionLisaIsa
